import Mathlib

/-!
Verification of the sunrise/sunset dark-mode switcher
(`auto-darkmode/darkmode-switch.py`).

The script's numeric core is embedded over the real numbers:

* `pymod` models Python's `%` on floats (sign of the divisor);
* `pyInt` models Python's `int(·)` (truncation toward zero);
* `radians` / `degrees` model `math.radians` / `math.degrees`;
* `Date` / `dayOfYear` model `date.timetuple().tm_yday`;
* the named components `lng_hour`, `t_approx`, `mean_anomaly`,
  `true_long`, `ra_uncorrected`, `ra_hours`, `sin_dec`, `cos_dec`,
  `cos_hour_angle`, `hour_angle`, `local_mean_time`, `ut_value` each
  mirror one line of the nested function `sun_time` in
  `calc_sunrise_sunset`, and `sun_time` assembles them exactly as the
  source does (returning `none` on the two polar branches);
* `utc_hours_to_local_time`, `is_daytime`, `should_be_dark`,
  `current_is_dark`, `scheme_string` and `main_decision` mirror the
  decision part of `main` (lines 117-149), with the ambient inputs
  (UTC offset, current wall-clock time, current gsettings scheme)
  passed as parameters and the resulting external scheme state
  returned explicitly.
-/

open Real

/-- Python's `%` on floats, for our use sites (`x % 360`, `x % 24`):
`a % b = a - b * floor (a / b)`. -/
noncomputable def pymod (a b : ℝ) : ℝ := a - b * ⌊a / b⌋

/-- Python's `int(·)` on floats: truncation toward zero. -/
noncomputable def pyInt (x : ℝ) : ℤ := if 0 ≤ x then ⌊x⌋ else -⌊-x⌋

/-- `math.radians`. -/
noncomputable def radians (x : ℝ) : ℝ := x * π / 180

/-- `math.degrees`. -/
noncomputable def degrees (x : ℝ) : ℝ := x * 180 / π

/-- A calendar date, as consumed by `calc_sunrise_sunset`. -/
structure Date where
  year : ℤ
  month : ℕ
  day : ℕ

/-- Gregorian leap-year rule (as implemented by Python's `datetime`). -/
def isLeap (y : ℤ) : Bool := y % 4 == 0 && (y % 100 != 0 || y % 400 == 0)

/-- Month lengths of a (leap or common) year. -/
def monthLengths (leap : Bool) : List ℕ :=
  [31, if leap then 29 else 28, 31, 30, 31, 30, 31, 31, 30, 31, 30, 31]

/-- `date.timetuple().tm_yday`: 1-based ordinal day of the year. -/
def dayOfYear (d : Date) : ℕ :=
  ((monthLengths (isLeap d.year)).take (d.month - 1)).sum + d.day

/-- Line 38: `lng_hour = lon / 15.0`. -/
noncomputable def lng_hour (lon : ℝ) : ℝ := lon / 15

/-- Lines 41-44: the first time estimate `t`, seeded by assumed local
hour 6 for sunrise and 18 for sunset. -/
noncomputable def t_approx (lon : ℝ) (doy : ℕ) (is_rise : Bool) : ℝ :=
  (doy : ℝ) + ((if is_rise then (6 : ℝ) else 18) - lng_hour lon) / 24

/-- Line 47: the sun's mean anomaly `M = 0.9856 * t - 3.289`. -/
noncomputable def mean_anomaly (lon : ℝ) (doy : ℕ) (is_rise : Bool) : ℝ :=
  0.9856 * t_approx lon doy is_rise - 3.289

/-- Lines 50-52: the sun's true longitude, reduced into `[0, 360)`. -/
noncomputable def true_long (lon : ℝ) (doy : ℕ) (is_rise : Bool) : ℝ :=
  pymod (mean_anomaly lon doy is_rise
      + 1.916 * Real.sin (radians (mean_anomaly lon doy is_rise))
      + 0.020 * Real.sin (radians (2 * mean_anomaly lon doy is_rise))
      + 282.634) 360

/-- Lines 55-56: right ascension before quadrant correction,
`RA = degrees(atan(0.91764 * tan(radians L))) % 360`. -/
noncomputable def ra_uncorrected (lon : ℝ) (doy : ℕ) (is_rise : Bool) : ℝ :=
  pymod (degrees (Real.arctan (0.91764 * Real.tan (radians (true_long lon doy is_rise))))) 360

/-- Lines 57-59: quadrant-corrected right ascension, converted to hours:
`RA = (RA + ((L // 90) * 90 - (RA // 90) * 90)) / 15`. -/
noncomputable def ra_hours (lon : ℝ) (doy : ℕ) (is_rise : Bool) : ℝ :=
  (ra_uncorrected lon doy is_rise
      + ((⌊true_long lon doy is_rise / 90⌋ : ℝ) * 90
        - (⌊ra_uncorrected lon doy is_rise / 90⌋ : ℝ) * 90)) / 15

/-- Line 62: `sin_dec = 0.39782 * sin(radians L)`. -/
noncomputable def sin_dec (lon : ℝ) (doy : ℕ) (is_rise : Bool) : ℝ :=
  0.39782 * Real.sin (radians (true_long lon doy is_rise))

/-- Line 63: `cos_dec = cos(asin(sin_dec))`. -/
noncomputable def cos_dec (lon : ℝ) (doy : ℕ) (is_rise : Bool) : ℝ :=
  Real.cos (Real.arcsin (sin_dec lon doy is_rise))

/-- Lines 66-69: cosine of the hour angle, with zenith `90.833`. -/
noncomputable def cos_hour_angle (lat lon : ℝ) (doy : ℕ) (is_rise : Bool) : ℝ :=
  (Real.cos (radians 90.833) - sin_dec lon doy is_rise * Real.sin (radians lat))
    / (cos_dec lon doy is_rise * Real.cos (radians lat))

/-- Lines 76-79: the hour angle in hours; the sunrise branch takes
`(360 - acos)/15`, the sunset branch `acos/15`. -/
noncomputable def hour_angle (lat lon : ℝ) (doy : ℕ) (is_rise : Bool) : ℝ :=
  if is_rise then
    (360 - degrees (Real.arccos (cos_hour_angle lat lon doy is_rise))) / 15
  else
    degrees (Real.arccos (cos_hour_angle lat lon doy is_rise)) / 15

/-- Line 82: local mean time `T = H + RA - 0.06571 * t - 6.622`. -/
noncomputable def local_mean_time (lat lon : ℝ) (doy : ℕ) (is_rise : Bool) : ℝ :=
  hour_angle lat lon doy is_rise + ra_hours lon doy is_rise
    - 0.06571 * t_approx lon doy is_rise - 6.622

/-- Line 84: `UT = (T - lng_hour) % 24`. -/
noncomputable def ut_value (lat lon : ℝ) (doy : ℕ) (is_rise : Bool) : ℝ :=
  pymod (local_mean_time lat lon doy is_rise - lng_hour lon) 24

/-- The nested function `sun_time` (lines 40-85): `none` on the two
polar branches (lines 71-74), otherwise the UTC-of-day value. -/
noncomputable def sun_time (lat lon : ℝ) (doy : ℕ) (is_rise : Bool) : Option ℝ :=
  if 1 < cos_hour_angle lat lon doy is_rise then none
  else if cos_hour_angle lat lon doy is_rise < -1 then none
  else some (ut_value lat lon doy is_rise)

/-- `calc_sunrise_sunset` (lines 31-87): the pair
`(sun_time(True), sun_time(False))`. -/
noncomputable def calc_sunrise_sunset (lat lon : ℝ) (date : Date) : Option ℝ × Option ℝ :=
  (sun_time lat lon (dayOfYear date) true, sun_time lat lon (dayOfYear date) false)

/-- The spec's `SolarEvent`: a UTC-of-day value or an explicit polar
condition variant. -/
inductive SolarEvent where
  | utc (hours : ℝ)
  | sunNeverRises
  | sunNeverSets

/-- Modelled from the spec, section 4.1 steps 1-11: the NOAA formula
sequence with a mode flag, the first time estimate seeded by assumed
local hour 6:00 (rise) or 18:00 (set), `SunNeverRises` when
`cosH > 1`, `SunNeverSets` when `cosH < -1`, the sunrise branch of the
hour angle `(360 - acos(cosH))/15` and the sunset branch
`acos(cosH)/15`, and `UT = (T - lngHour) mod 24`. -/
noncomputable def specSolarEvent (latitude longitude : ℝ) (doy : ℕ) (is_rise : Bool) :
    SolarEvent :=
  let lngHour := longitude / 15
  let t := (doy : ℝ) + ((if is_rise then (6 : ℝ) else 18) - lngHour) / 24
  let M := 0.9856 * t - 3.289
  let L := pymod (M + 1.916 * Real.sin (radians M)
      + 0.020 * Real.sin (radians (2 * M)) + 282.634) 360
  let RA := pymod (degrees (Real.arctan (0.91764 * Real.tan (radians L)))) 360
  let RAcorr := RA + ((⌊L / 90⌋ : ℝ) * 90 - (⌊RA / 90⌋ : ℝ) * 90)
  let RAhours := RAcorr / 15
  let sinDec := 0.39782 * Real.sin (radians L)
  let cosDec := Real.cos (Real.arcsin sinDec)
  let cosH := (Real.cos (radians 90.833) - sinDec * Real.sin (radians latitude))
      / (cosDec * Real.cos (radians latitude))
  if 1 < cosH then SolarEvent.sunNeverRises
  else if cosH < -1 then SolarEvent.sunNeverSets
  else
    let H := if is_rise then (360 - degrees (Real.arccos cosH)) / 15
      else degrees (Real.arccos cosH) / 15
    let T := H + RAhours - 0.06571 * t - 6.622
    SolarEvent.utc (pymod (T - lngHour) 24)

/-- Modelled from the spec: `computeSolarEvents` returns the pair of
events for the rise and set modes. -/
noncomputable def specComputeSolarEvents (latitude longitude : ℝ) (date : Date) :
    SolarEvent × SolarEvent :=
  (specSolarEvent latitude longitude (dayOfYear date) true,
    specSolarEvent latitude longitude (dayOfYear date) false)

/-- `utc_hours_to_local_time` (lines 90-97), with the host UTC offset
passed as a parameter: `local_hours = (utc_hours + offset) % 24`,
`h = int(local_hours)`, `m = int((local_hours - h) * 60)`. -/
noncomputable def utc_hours_to_local_time (offset utc_hours : ℝ) : ℤ × ℤ :=
  let local_hours := pymod (utc_hours + offset) 24
  let h := pyInt local_hours
  let m := pyInt ((local_hours - (h : ℝ)) * 60)
  (h, m)

/-- Line 133: `is_daytime = sunrise_minutes <= now_minutes <= sunset_minutes`. -/
def is_daytime (sunrise_minutes now_minutes sunset_minutes : ℤ) : Bool :=
  decide (sunrise_minutes ≤ now_minutes) && decide (now_minutes ≤ sunset_minutes)

/-- Line 134: `should_be_dark = not is_daytime`. -/
def should_be_dark (sunrise_minutes now_minutes sunset_minutes : ℤ) : Bool :=
  ! is_daytime sunrise_minutes now_minutes sunset_minutes

/-- Line 137: `current_is_dark = (current == "prefer-dark")`. -/
def current_is_dark (current : String) : Bool := current == "prefer-dark"

/-- Line 109: the scheme string written by `set_scheme`. -/
def scheme_string (dark : Bool) : String := if dark then "prefer-dark" else "default"

/-- Minutes-since-midnight of an (hour, minute) pair (lines 129-131). -/
def minutes_of (hm : ℤ × ℤ) : ℤ := hm.1 * 60 + hm.2

/-- Lines 126-134 as a single function: the computed target mode
("should be dark") from the two UTC event values, the host UTC offset
and the current local wall-clock hour and minute. -/
noncomputable def target_dark (offset sr ss : ℝ) (nowH nowM : ℤ) : Bool :=
  should_be_dark (minutes_of (utc_hours_to_local_time offset sr))
    (nowH * 60 + nowM)
    (minutes_of (utc_hours_to_local_time offset ss))

/-- The observable outcome of one run of `main` past the solar
computation: the polar warning (lines 122-124), a skip (lines
143-145), or a mode switch (lines 146-149). -/
inductive MainResult where
  | polarWarn
  | skipKeep (dark : Bool)
  | switched (dark : Bool)
deriving DecidableEq

/-- Lines 120-149 of `main`, decision part: inputs are the two results
of `calc_sunrise_sunset`, the host UTC offset, the current local time
and the scheme read back by `get_current_scheme`; the second component
is the external scheme state after the run (written by `set_scheme`
only on the switch branch). -/
noncomputable def main_decision (sunrise_utc sunset_utc : Option ℝ) (offset : ℝ)
    (nowH nowM : ℤ) (current : String) : MainResult × String :=
  match sunrise_utc, sunset_utc with
  | some sr, some ss =>
    let sbd := target_dark offset sr ss nowH nowM
    let cid := current_is_dark current
    if sbd == cid then (MainResult.skipKeep cid, current)
    else (MainResult.switched sbd, scheme_string sbd)
  | _, _ => (MainResult.polarWarn, current)

/-! ### Basic facts about the Python primitives -/

theorem pymod_nonneg (a : ℝ) {b : ℝ} (hb : 0 < b) : 0 ≤ pymod a b := by
  have h := Int.floor_le (a / b)
  have : b * (⌊a / b⌋ : ℝ) ≤ b * (a / b) := by
    exact mul_le_mul_of_nonneg_left h hb.le
  rw [mul_div_cancel₀ _ hb.ne'] at this
  simpa [pymod] using this

theorem pymod_lt (a : ℝ) {b : ℝ} (hb : 0 < b) : pymod a b < b := by
  have h := Int.lt_floor_add_one (a / b)
  have : b * (a / b) < b * ((⌊a / b⌋ : ℝ) + 1) := by
    exact mul_lt_mul_of_pos_left h hb
  rw [mul_div_cancel₀ _ hb.ne'] at this
  simp only [pymod]
  nlinarith

theorem pymod_def (a b : ℝ) : pymod a b = a - b * ⌊a / b⌋ := rfl

theorem pyInt_of_nonneg {x : ℝ} (hx : 0 ≤ x) : pyInt x = ⌊x⌋ := by
  simp [pyInt, hx]

/-! ### Claim theorems -/

/-- C1: for every latitude, longitude and date, `calc_sunrise_sunset`
returns a UTC-of-day value for an event exactly when the spec's NOAA
formula sequence (section 4.1, steps 1-11; rise seeded at 6:00 with
the `(360 - acos)/15` branch, set seeded at 18:00 with the `acos/15`
branch) produces that same value for that event. -/
theorem c1_noaa_refinement (lat lon : ℝ) (d : Date) (u : ℝ) :
    ((calc_sunrise_sunset lat lon d).1 = some u ↔
      (specComputeSolarEvents lat lon d).1 = SolarEvent.utc u) ∧
    ((calc_sunrise_sunset lat lon d).2 = some u ↔
      (specComputeSolarEvents lat lon d).2 = SolarEvent.utc u) := by
  have key : ∀ r : Bool, (sun_time lat lon (dayOfYear d) r = some u ↔
      specSolarEvent lat lon (dayOfYear d) r = SolarEvent.utc u) := by
    intro r
    simp only [sun_time, specSolarEvent, ut_value, local_mean_time, hour_angle,
      ra_hours, ra_uncorrected, sin_dec, cos_dec, cos_hour_angle, true_long,
      mean_anomaly, t_approx, lng_hour]
    split_ifs <;> simp
  exact ⟨key true, key false⟩

/-- C2 (counterexample): the calculator cannot return two distinct
polar markers that are both distinguishable from every UTC-of-day
value: its return type has exactly one non-value result, so no pair of
markers with the claimed properties exists for the two polar branches. -/
theorem c2_distinct_markers_counterexample :
    ¬ ∃ riseMark setMark : Option ℝ, riseMark ≠ setMark ∧
      (∀ u : ℝ, riseMark ≠ some u) ∧ (∀ u : ℝ, setMark ≠ some u) ∧
      (∀ (lat lon : ℝ) (doy : ℕ), 1 < cos_hour_angle lat lon doy true →
        sun_time lat lon doy true = riseMark) ∧
      (∀ (lat lon : ℝ) (doy : ℕ), cos_hour_angle lat lon doy false < -1 →
        sun_time lat lon doy false = setMark) := by
  rintro ⟨riseMark, setMark, hne, hr, hs, -, -⟩
  cases riseMark with
  | some u => exact hr u rfl
  | none =>
    cases setMark with
    | some u => exact hs u rfl
    | none => exact hne rfl

/-- C2 (amended): the calculator returns the single marker `none`
exactly when the cosine of the hour angle exceeds 1 or is below -1;
that marker is distinct from every UTC-of-day value, but the two polar
outcomes are encoded identically and cannot be told apart. -/
theorem c2_single_polar_marker (lat lon : ℝ) (doy : ℕ) (is_rise : Bool) :
    (sun_time lat lon doy is_rise = none ↔
      1 < cos_hour_angle lat lon doy is_rise ∨ cos_hour_angle lat lon doy is_rise < -1) ∧
    (∀ u : ℝ, sun_time lat lon doy is_rise = none →
      sun_time lat lon doy is_rise ≠ some u) := by
  constructor
  · simp only [sun_time]
    split_ifs with h1 h2
    · simp [h1]
    · simp [h2]
    · simp [h1, h2]
  · intro u h
    rw [h]
    simp

/-- C6: on the non-polar path the returned UTC-of-day value is
`(T - lngHour) mod 24`, and that value always lies in `[0, 24)`. -/
theorem c6_ut_wrapped (lat lon : ℝ) (doy : ℕ) (is_rise : Bool) :
    (sun_time lat lon doy is_rise = none ∨
      sun_time lat lon doy is_rise =
        some (pymod (local_mean_time lat lon doy is_rise - lng_hour lon) 24)) ∧
    ut_value lat lon doy is_rise =
      pymod (local_mean_time lat lon doy is_rise - lng_hour lon) 24 ∧
    0 ≤ ut_value lat lon doy is_rise ∧ ut_value lat lon doy is_rise < 24 := by
  have h24 : (0 : ℝ) < 24 := by norm_num
  refine ⟨?_, rfl, pymod_nonneg _ h24, pymod_lt _ h24⟩
  simp only [sun_time]
  split_ifs <;> simp [ut_value]

/-- C3: the daylight decision is dark iff NOT
(sunrise ≤ now ≤ sunset), with both boundaries inclusive; in
particular `now = sunrise` and `now = sunset` yield the light mode
whenever sunrise ≤ sunset. -/
theorem c3_daytime_decision (srM nowM ssM : ℤ) :
    (should_be_dark srM nowM ssM = true ↔ ¬(srM ≤ nowM ∧ nowM ≤ ssM)) ∧
    (should_be_dark srM nowM ssM = false ↔ (srM ≤ nowM ∧ nowM ≤ ssM)) ∧
    (srM ≤ ssM → should_be_dark srM srM ssM = false ∧ should_be_dark srM ssM ssM = false) := by
  refine ⟨?_, ?_, ?_⟩
  · simp only [should_be_dark, is_daytime]
    simp
    omega
  · simp [should_be_dark, is_daytime]
  · intro h
    constructor <;> simp [should_be_dark, is_daytime, h]

theorem c3_daytime_decision_witness :
    should_be_dark 360 360 1080 = false ∧ should_be_dark 360 1080 1080 = false :=
  (c3_daytime_decision 360 700 1080).2.2 (by decide)

/-- C4: whenever either solar event is the polar marker, `main`
produces the polar warning (neither a dark nor a light decision), no
mode change is applied, and the external scheme state is unchanged. -/
theorem c4_polar_no_change (a b : Option ℝ) (offset : ℝ) (nowH nowM : ℤ)
    (current : String) (h : a = none ∨ b = none) :
    main_decision a b offset nowH nowM current = (MainResult.polarWarn, current) := by
  rcases h with rfl | rfl
  · cases b <;> rfl
  · cases a <;> rfl

theorem c4_polar_no_change_witness :
    main_decision none (some 5) 9 12 0 "default" = (MainResult.polarWarn, "default") :=
  c4_polar_no_change none (some 5) 9 12 0 "default" (Or.inl rfl)

/-- C7: the local-time conversion computes
`localHours = (utcHours + offset) mod 24`, then the whole hour
`h = floor localHours` and the minute `m = floor ((localHours - h) * 60)`. -/
theorem c7_local_conversion (offset utc_hours : ℝ) :
    utc_hours_to_local_time offset utc_hours =
      (⌊pymod (utc_hours + offset) 24⌋,
        ⌊(pymod (utc_hours + offset) 24 - (⌊pymod (utc_hours + offset) 24⌋ : ℝ)) * 60⌋) := by
  have h0 : (0 : ℝ) < 24 := by norm_num
  have h1 : 0 ≤ pymod (utc_hours + offset) 24 := pymod_nonneg _ h0
  have h2 : 0 ≤ pymod (utc_hours + offset) 24 - (⌊pymod (utc_hours + offset) 24⌋ : ℝ) := by
    have := Int.floor_le (pymod (utc_hours + offset) 24)
    linarith
  simp only [utc_hours_to_local_time]
  rw [pyInt_of_nonneg h1, pyInt_of_nonneg (by linarith : (0:ℝ) ≤ _)]

/-- C8: a mode write happens only when the computed target differs
from the current external mode; when they agree the run skips and the
external scheme state is unchanged, and when they differ the switch
writes exactly the scheme for the computed target. -/
theorem c8_write_only_on_change (sr ss offset : ℝ) (nowH nowM : ℤ) (current : String) :
    (target_dark offset sr ss nowH nowM = current_is_dark current →
      main_decision (some sr) (some ss) offset nowH nowM current =
        (MainResult.skipKeep (current_is_dark current), current)) ∧
    (target_dark offset sr ss nowH nowM ≠ current_is_dark current →
      main_decision (some sr) (some ss) offset nowH nowM current =
        (MainResult.switched (target_dark offset sr ss nowH nowM),
          scheme_string (target_dark offset sr ss nowH nowM))) := by
  constructor
  · intro h
    simp [main_decision, h]
  · intro h
    simp [main_decision, h]

theorem c8_write_only_on_change_witness :
    main_decision (some 6) (some 18) 0 12 0 "default" =
      (MainResult.skipKeep (current_is_dark "default"), "default") := by
  have ht : target_dark 0 6 18 12 0 = false := by
    norm_num [target_dark, utc_hours_to_local_time, pymod, pyInt, minutes_of,
      should_be_dark, is_daytime]
  have hc : current_is_dark "default" = false := by decide
  exact (c8_write_only_on_change 6 18 0 12 0 "default").1 (ht.trans hc.symm)

/-- C9: `calc_sunrise_sunset` is a pure function of its three
arguments: equal inputs give equal outputs, whatever else varies. -/
theorem c9_determinism (lat lat' lon lon' : ℝ) (d d' : Date)
    (h1 : lat = lat') (h2 : lon = lon') (h3 : d = d') :
    calc_sunrise_sunset lat lon d = calc_sunrise_sunset lat' lon' d' := by
  rw [h1, h2, h3]

theorem c9_determinism_witness :
    calc_sunrise_sunset 35 139 ⟨2024, 6, 21⟩ = calc_sunrise_sunset 35 139 ⟨2024, 6, 21⟩ :=
  c9_determinism 35 35 139 139 ⟨2024, 6, 21⟩ ⟨2024, 6, 21⟩ rfl rfl rfl

/-- C10: the current scheme is compared for equality with the exact
string "prefer-dark"; any other scheme string read back (for example
"prefer-light" or "default") is treated as the light mode, so the
decision of `main` is the same as with scheme "default". -/
theorem c10_exact_string_compare (sr ss offset : ℝ) (nowH nowM : ℤ) (current : String) :
    (current_is_dark current = true ↔ current = "prefer-dark") ∧
    (current ≠ "prefer-dark" →
      (main_decision (some sr) (some ss) offset nowH nowM current).1 =
        (main_decision (some sr) (some ss) offset nowH nowM "default").1) := by
  constructor
  · simp [current_is_dark]
  · intro h
    have hc : current_is_dark current = false := by
      simp [current_is_dark, h]
    have hd : current_is_dark "default" = false := by decide
    simp only [main_decision, hc, hd]
    by_cases hb : target_dark offset sr ss nowH nowM = false <;> simp [hb]

theorem c10_exact_string_compare_witness :
    (current_is_dark "prefer-light" = true ↔ "prefer-light" = "prefer-dark") ∧
    ((main_decision (some 6) (some 18) 0 12 0 "prefer-light").1 =
      (main_decision (some 6) (some 18) 0 12 0 "default").1) := by
  have h := c10_exact_string_compare 6 18 0 12 0 "prefer-light"
  exact ⟨h.1, h.2 (by decide)⟩

/-! ### Numeric bounds toolkit -/

theorem sin_taylor_lb {x : ℝ} (h0 : 0 ≤ x) (h1 : x ≤ 1) :
    x - x ^ 3 / 6 - x ^ 4 * (5 / 96) ≤ Real.sin x := by
  have hb := Real.sin_bound (x := x) (by rwa [abs_of_nonneg h0])
  rw [abs_of_nonneg h0] at hb
  have h := abs_sub_le_iff.mp hb
  linarith [h.2]

theorem sin_taylor_ub {x : ℝ} (h0 : 0 ≤ x) (h1 : x ≤ 1) :
    Real.sin x ≤ x - x ^ 3 / 6 + x ^ 4 * (5 / 96) := by
  have hb := Real.sin_bound (x := x) (by rwa [abs_of_nonneg h0])
  rw [abs_of_nonneg h0] at hb
  have h := abs_sub_le_iff.mp hb
  linarith [h.1]

theorem cos_taylor_lb {x : ℝ} (h0 : 0 ≤ x) (h1 : x ≤ 1) :
    1 - x ^ 2 / 2 - x ^ 4 * (5 / 96) ≤ Real.cos x := by
  have hb := Real.cos_bound (x := x) (by rwa [abs_of_nonneg h0])
  rw [abs_of_nonneg h0] at hb
  have h := abs_sub_le_iff.mp hb
  linarith [h.2]

theorem cos_taylor_ub {x : ℝ} (h0 : 0 ≤ x) (h1 : x ≤ 1) :
    Real.cos x ≤ 1 - x ^ 2 / 2 + x ^ 4 * (5 / 96) := by
  have hb := Real.cos_bound (x := x) (by rwa [abs_of_nonneg h0])
  rw [abs_of_nonneg h0] at hb
  have h := abs_sub_le_iff.mp hb
  linarith [h.1]

theorem sin_lb_trans {a x : ℝ} (ha0 : 0 ≤ a) (ha1 : a ≤ 1) (hax : a ≤ x)
    (hx : x ≤ π / 2) : a - a ^ 3 / 6 - a ^ 4 * (5 / 96) ≤ Real.sin x := by
  have hpi := Real.pi_gt_d6
  have hmem1 : a ∈ Set.Icc (-(π / 2)) (π / 2) := ⟨by nlinarith, by nlinarith⟩
  have hmem2 : x ∈ Set.Icc (-(π / 2)) (π / 2) := ⟨by nlinarith, hx⟩
  have hmono := Real.strictMonoOn_sin.monotoneOn hmem1 hmem2 hax
  have h2 := sin_taylor_lb ha0 ha1
  linarith

theorem sin_ub_trans {b x : ℝ} (hx0 : 0 ≤ x) (hxb : x ≤ b) (hb1 : b ≤ 1) :
    Real.sin x ≤ b - b ^ 3 / 6 + b ^ 4 * (5 / 96) := by
  have hpi := Real.pi_gt_d6
  have hb0 : 0 ≤ b := le_trans hx0 hxb
  have hmem1 : x ∈ Set.Icc (-(π / 2)) (π / 2) := ⟨by nlinarith, by nlinarith⟩
  have hmem2 : b ∈ Set.Icc (-(π / 2)) (π / 2) := ⟨by nlinarith, by nlinarith⟩
  have hmono := Real.strictMonoOn_sin.monotoneOn hmem1 hmem2 hxb
  have h2 := sin_taylor_ub hb0 hb1
  linarith

theorem cos_lb_trans {b x : ℝ} (hx0 : 0 ≤ x) (hxb : x ≤ b) (hb1 : b ≤ 1) :
    1 - b ^ 2 / 2 - b ^ 4 * (5 / 96) ≤ Real.cos x := by
  have hpi := Real.pi_gt_d6
  have hb0 : 0 ≤ b := le_trans hx0 hxb
  have hmem1 : x ∈ Set.Icc 0 π := ⟨hx0, by nlinarith⟩
  have hmem2 : b ∈ Set.Icc 0 π := ⟨hb0, by nlinarith⟩
  have hmono := Real.strictAntiOn_cos.antitoneOn hmem1 hmem2 hxb
  have h2 := cos_taylor_lb hb0 hb1
  linarith

theorem cos_ub_trans {a x : ℝ} (ha0 : 0 ≤ a) (ha1 : a ≤ 1) (hax : a ≤ x)
    (hx : x ≤ π) : Real.cos x ≤ 1 - a ^ 2 / 2 + a ^ 4 * (5 / 96) := by
  have hpi := Real.pi_gt_d6
  have hmem1 : a ∈ Set.Icc 0 π := ⟨ha0, by nlinarith⟩
  have hmem2 : x ∈ Set.Icc 0 π := ⟨le_trans ha0 hax, hx⟩
  have hmono := Real.strictAntiOn_cos.antitoneOn hmem1 hmem2 hax
  have h2 := cos_taylor_ub ha0 ha1
  linarith

theorem radians_lb {q : ℝ} (hq : 0 ≤ q) : q * 3.141592 / 180 ≤ radians q := by
  have h := Real.pi_gt_d6
  have := mul_le_mul_of_nonneg_left h.le hq
  unfold radians
  linarith

theorem radians_ub {q : ℝ} (hq : 0 ≤ q) : radians q ≤ q * 3.141593 / 180 := by
  have h := Real.pi_lt_d6
  have := mul_le_mul_of_nonneg_left h.le hq
  unfold radians
  linarith

theorem radians_nonneg {q : ℝ} (hq : 0 ≤ q) : 0 ≤ radians q := by
  have := radians_lb hq
  nlinarith

/-! ### Concrete bounds for the C5 counterexample
(latitude 66, longitude 0, 2024-06-21, sunset computation) -/

theorem mean_anomaly_c5 : mean_anomaly 0 173 false = 167.959 := by
  norm_num [mean_anomaly, t_approx, lng_hour]

theorem sin_radians_c5M :
    0.2085064 ≤ Real.sin (radians 167.959) ∧ Real.sin (radians 167.959) ≤ 0.2087099 := by
  have hid : radians 167.959 = π - radians 12.041 := by unfold radians; ring
  rw [hid, Real.sin_pi_sub]
  have hpi := Real.pi_gt_d6
  have hlo : (0.2101550 : ℝ) ≤ radians 12.041 :=
    le_trans (by norm_num) (radians_lb (by norm_num))
  have hhi : radians 12.041 ≤ 0.2101552 :=
    le_trans (radians_ub (by norm_num)) (by norm_num)
  constructor
  · have h := sin_lb_trans (a := 0.2101550) (by norm_num) (by norm_num) hlo
      (by linarith)
    nlinarith [h]
  · have h := sin_ub_trans (b := 0.2101552) (by linarith) hhi (by norm_num)
    nlinarith [h]

theorem sin_radians_c52M :
    -0.4095605 ≤ Real.sin (radians 335.918) ∧ Real.sin (radians 335.918) ≤ -0.4063087 := by
  have hid : radians 335.918 = -(radians 24.082) + 2 * π := by unfold radians; ring
  rw [hid, Real.sin_add_two_pi, Real.sin_neg]
  have hpi := Real.pi_gt_d6
  have hlo : (0.4203101 : ℝ) ≤ radians 24.082 :=
    le_trans (by norm_num) (radians_lb (by norm_num))
  have hhi : radians 24.082 ≤ 0.4203103 :=
    le_trans (radians_ub (by norm_num)) (by norm_num)
  constructor
  · have h := sin_ub_trans (b := 0.4203103) (by linarith) hhi (by norm_num)
    have hb : (0.4203103 : ℝ) - 0.4203103 ^ 3 / 6 + 0.4203103 ^ 4 * (5 / 96)
        ≤ 0.4095605 := by norm_num
    linarith
  · have h := sin_lb_trans (a := 0.4203101) (by norm_num) (by norm_num) hlo
      (by linarith)
    have hb : (0.4063087 : ℝ) ≤ 0.4203101 - 0.4203101 ^ 3 / 6
        - 0.4203101 ^ 4 * (5 / 96) := by norm_num
    linarith

theorem true_long_c5 :
    90.984306 ≤ true_long 0 173 false ∧ true_long 0 173 false ≤ 90.984763 := by
  have hM := mean_anomaly_c5
  have h2M : (2 : ℝ) * 167.959 = 335.918 := by norm_num
  have hs1 := sin_radians_c5M
  have hs2 := sin_radians_c52M
  have key : ∀ X : ℝ, 450.984306 ≤ X → X ≤ 450.984763 →
      90.984306 ≤ pymod X 360 ∧ pymod X 360 ≤ 90.984763 := by
    intro X h1 h2
    have hfloor : ⌊X / 360⌋ = 1 := by
      rw [Int.floor_eq_iff]
      constructor
      · push_cast
        linarith
      · push_cast
        linarith
    rw [pymod, hfloor]
    push_cast
    constructor <;> linarith
  unfold true_long
  rw [hM, h2M]
  exact key _ (by nlinarith [hs1.1, hs2.1]) (by nlinarith [hs1.2, hs2.2])

theorem sin_dec_c5 : 0.3977612 ≤ sin_dec 0 173 false ∧ sin_dec 0 173 false ≤ 0.39782 := by
  obtain ⟨hL1, hL2⟩ := true_long_c5
  unfold sin_dec
  have hid : radians (true_long 0 173 false) =
      radians (true_long 0 173 false - 90) + π / 2 := by unfold radians; ring
  rw [hid, Real.sin_add_pi_div_two]
  have hy0 : 0 ≤ radians (true_long 0 173 false - 90) := radians_nonneg (by linarith)
  have hyub : radians (true_long 0 173 false - 90) ≤ 0.0171874 := by
    have h := radians_ub (q := true_long 0 173 false - 90) (by linarith)
    nlinarith
  constructor
  · have h := cos_lb_trans (b := 0.0171874) hy0 hyub (by norm_num)
    nlinarith [h]
  · have h := Real.cos_le_one (radians (true_long 0 173 false - 90))
    nlinarith

theorem cos_dec_c5 : 0 < cos_dec 0 173 false ∧ cos_dec 0 173 false ≤ 0.91749 := by
  obtain ⟨h1, h2⟩ := sin_dec_c5
  unfold cos_dec
  rw [Real.cos_arcsin]
  constructor
  · apply Real.sqrt_pos.mpr
    nlinarith
  · have hsq : 1 - sin_dec 0 173 false ^ 2 ≤ 0.91749 ^ 2 := by nlinarith
    calc Real.sqrt (1 - sin_dec 0 173 false ^ 2) ≤ Real.sqrt (0.91749 ^ 2) :=
          Real.sqrt_le_sqrt hsq
    _ = 0.91749 := Real.sqrt_sq (by norm_num)

theorem sin_radians_66_lb : 0.9106666 ≤ Real.sin (radians 66) := by
  have hid : radians 66 = π / 2 - radians 24 := by unfold radians; ring
  rw [hid, Real.sin_pi_div_two_sub]
  have hyub : radians 24 ≤ 0.4188791 :=
    le_trans (radians_ub (by norm_num)) (by norm_num)
  have h := cos_lb_trans (b := 0.4188791) (radians_nonneg (by norm_num)) hyub
    (by norm_num)
  nlinarith [h]

theorem cos_radians_66_bounds :
    0.405 ≤ Real.cos (radians 66) ∧ Real.cos (radians 66) ≤ 0.4082332 := by
  have hid : radians 66 = π / 2 - radians 24 := by unfold radians; ring
  rw [hid, Real.cos_pi_div_two_sub]
  have hylo : (0.4188789 : ℝ) ≤ radians 24 :=
    le_trans (by norm_num) (radians_lb (by norm_num))
  have hyub : radians 24 ≤ 0.4188791 :=
    le_trans (radians_ub (by norm_num)) (by norm_num)
  have hpi := Real.pi_gt_d6
  constructor
  · have h := sin_lb_trans (a := 0.4188789) (by norm_num) (by norm_num) hylo
      (by linarith)
    nlinarith [h]
  · have h := sin_ub_trans (b := 0.4188791) (by linarith) hyub (by norm_num)
    nlinarith [h]

theorem cos_radians_zenith :
    -0.0145381 ≤ Real.cos (radians 90.833) ∧ Real.cos (radians 90.833) ≤ -0.0145379 := by
  have hid : radians 90.833 = radians 0.833 + π / 2 := by unfold radians; ring
  rw [hid, Real.cos_add_pi_div_two]
  have hpi := Real.pi_gt_d6
  have hlo : (0.0145385 : ℝ) ≤ radians 0.833 :=
    le_trans (by norm_num) (radians_lb (by norm_num))
  have hhi : radians 0.833 ≤ 0.0145386 :=
    le_trans (radians_ub (by norm_num)) (by norm_num)
  constructor
  · have h := sin_ub_trans (b := 0.0145386) (by linarith) hhi (by norm_num)
    nlinarith [h]
  · have h := sin_lb_trans (a := 0.0145385) (by norm_num) (by norm_num) hlo
      (by linarith)
    nlinarith [h]

theorem c5_cosH_lt_neg_one : cos_hour_angle 66 0 173 false < -1 := by
  obtain ⟨hz1, hz2⟩ := cos_radians_zenith
  obtain ⟨hs1, hs2⟩ := sin_dec_c5
  obtain ⟨hd1, hd2⟩ := cos_dec_c5
  have h66 := sin_radians_66_lb
  obtain ⟨hc1, hc2⟩ := cos_radians_66_bounds
  unfold cos_hour_angle
  have hden_pos : 0 < cos_dec 0 173 false * Real.cos (radians 66) := by positivity
  rw [div_lt_iff hden_pos]
  have hnum : Real.cos (radians 90.833) - sin_dec 0 173 false * Real.sin (radians 66)
      ≤ -0.3767657 := by nlinarith
  have hden : cos_dec 0 173 false * Real.cos (radians 66) ≤ 0.3745499 := by nlinarith
  nlinarith

/-- C5 (counterexample): latitude 66 lies strictly inside the claimed
range (-66.5, 66.5), yet on 2024-06-21 (day of year 173) at longitude
0 the sunset computation hits the polar branch (`cosH < -1`), so
`calc_sunrise_sunset` does not return two non-polar values. -/
theorem c5_polar_inside_claimed_range :
    (-66.5 : ℝ) < 66 ∧ (66 : ℝ) < 66.5 ∧
    (calc_sunrise_sunset 66 0 ⟨2024, 6, 21⟩).2 = none := by
  refine ⟨by norm_num, by norm_num, ?_⟩
  have hdoy : dayOfYear ⟨2024, 6, 21⟩ = 173 := by decide
  show sun_time 66 0 (dayOfYear ⟨2024, 6, 21⟩) false = none
  rw [hdoy]
  unfold sun_time
  have h := c5_cosH_lt_neg_one
  rw [if_neg (by linarith), if_pos h]

/-! ### The quadrant-corrected right ascension stays within 2.5 degrees
of the sun's true longitude -/

theorem quad_nonneg_aux {A B C : ℝ} (T : ℝ) (hA : 0 < A) (hdisc : B ^ 2 ≤ 4 * A * C) :
    0 ≤ A * T ^ 2 - B * T + C := by
  nlinarith [sq_nonneg (2 * A * T - B), hA.le, mul_pos hA hA]

theorem arctan_scale_le {r : ℝ} (h0 : 0 ≤ r) (h1 : r < π / 2) :
    Real.arctan (0.91764 * Real.tan r) ≤ r := by
  have ht : 0 ≤ Real.tan r := Real.tan_nonneg_of_nonneg_of_le_pi_div_two h0 h1.le
  have h : (0.91764 : ℝ) * Real.tan r ≤ Real.tan r := by nlinarith
  have h2 := Real.arctan_strictMono.monotone h
  rwa [Real.arctan_tan (by linarith [Real.pi_pos]) h1] at h2

theorem arctan_scale_nonneg {r : ℝ} (h0 : 0 ≤ r) (h1 : r < π / 2) :
    0 ≤ Real.arctan (0.91764 * Real.tan r) := by
  have ht : 0 ≤ Real.tan r := Real.tan_nonneg_of_nonneg_of_le_pi_div_two h0 h1.le
  have h2 := Real.arctan_strictMono.monotone
    (show (0 : ℝ) ≤ 0.91764 * Real.tan r by nlinarith)
  rwa [Real.arctan_zero] at h2

theorem arctan_pair_close {x y : ℝ} (hy0 : 0 ≤ y) (hyx : y ≤ x) (hx2 : x < π / 2)
    (htan : Real.tan y = 0.91764 * Real.tan x) : x - y ≤ 0.0431 := by
  by_cases hxc : x ≤ 0.0431
  · linarith
  push_neg at hxc
  have hpi := Real.pi_gt_d6
  have hx0 : 0 ≤ x := le_trans hy0 hyx
  have hT0 : 0 ≤ Real.tan x := Real.tan_nonneg_of_nonneg_of_le_pi_div_two hx0 hx2.le
  have hcx : 0 < Real.cos x := Real.cos_pos_of_mem_Ioo ⟨by linarith [Real.pi_pos], hx2⟩
  have hcy : 0 < Real.cos y :=
    Real.cos_pos_of_mem_Ioo ⟨by linarith [Real.pi_pos], lt_of_le_of_lt hyx hx2⟩
  have hsinx : Real.sin x = Real.tan x * Real.cos x := by
    rw [Real.tan_eq_sin_div_cos]
    field_simp
  have hsiny : Real.sin y = 0.91764 * Real.tan x * Real.cos y := by
    rw [← htan, Real.tan_eq_sin_div_cos]
    field_simp
  have hsc_lb : (0.0430861 : ℝ) ≤ Real.sin 0.0431 := by
    have h := sin_taylor_lb (x := (0.0431 : ℝ)) (by norm_num) (by norm_num)
    have h2 : (0.0430861 : ℝ) ≤ 0.0431 - 0.0431 ^ 3 / 6 - 0.0431 ^ 4 * (5 / 96) := by
      norm_num
    linarith
  have hsc_ub : Real.sin 0.0431 ≤ 0.0431 := Real.sin_le (by norm_num)
  have hcc_ub : Real.cos 0.0431 ≤ 1 := Real.cos_le_one _
  have hquad : 0 ≤ (0.91764 * Real.sin 0.0431) * (Real.tan x) ^ 2
      - 0.08236 * Real.tan x + Real.sin 0.0431 :=
    quad_nonneg_aux _ (by nlinarith)
      (by nlinarith [sq_nonneg (Real.sin 0.0431 - 0.0430861)])
  have hdiff : Real.sin (x - y - 0.0431) =
      Real.cos x * Real.cos y *
        (Real.tan x * (1 - 0.91764) * Real.cos 0.0431 -
          (1 + 0.91764 * (Real.tan x) ^ 2) * Real.sin 0.0431) := by
    rw [show x - y - 0.0431 = (x - y) - 0.0431 by ring, Real.sin_sub (x - y) 0.0431,
      Real.sin_sub x y, Real.cos_sub x y, hsinx, hsiny]
    ring
  have hX : Real.tan x * (1 - 0.91764) * Real.cos 0.0431 -
      (1 + 0.91764 * (Real.tan x) ^ 2) * Real.sin 0.0431 ≤ 0 := by
    have h1 : Real.tan x * (1 - 0.91764) * Real.cos 0.0431 ≤
        Real.tan x * (1 - 0.91764) := by nlinarith
    nlinarith [hquad]
  have hsin_nonpos : Real.sin (x - y - 0.0431) ≤ 0 := by
    rw [hdiff]
    nlinarith [hX, mul_pos hcx hcy]
  by_contra hcon
  push_neg at hcon
  have h2 : 0 < x - y - 0.0431 := by linarith
  have h3 : x - y - 0.0431 < π := by linarith [Real.pi_pos]
  exact absurd (Real.sin_pos_of_pos_of_lt_pi h2 h3) (not_lt.mpr hsin_nonpos)

theorem arctan_scale_ge {r : ℝ} (h0 : 0 ≤ r) (h1 : r < π / 2) :
    r - 0.0431 ≤ Real.arctan (0.91764 * Real.tan r) := by
  have hs0 := arctan_scale_nonneg h0 h1
  have hsr := arctan_scale_le h0 h1
  have hclose := arctan_pair_close (x := r) (y := Real.arctan (0.91764 * Real.tan r))
    hs0 hsr h1 (by rw [Real.tan_arctan])
  linarith

theorem arctan_inv_ge {r : ℝ} (h0 : 0 ≤ r) (h1 : r < π / 2) :
    r ≤ Real.arctan (Real.tan r / 0.91764) := by
  have ht : 0 ≤ Real.tan r := Real.tan_nonneg_of_nonneg_of_le_pi_div_two h0 h1.le
  have h : Real.tan r ≤ Real.tan r / 0.91764 := by
    rw [le_div_iff (by norm_num : (0 : ℝ) < 0.91764)]
    nlinarith
  have h2 := Real.arctan_strictMono.monotone h
  rwa [Real.arctan_tan (by linarith [Real.pi_pos]) h1] at h2

theorem arctan_inv_le {r : ℝ} (h0 : 0 ≤ r) (h1 : r < π / 2) :
    Real.arctan (Real.tan r / 0.91764) ≤ r + 0.0431 := by
  have hge := arctan_inv_ge h0 h1
  have hlt := Real.arctan_lt_pi_div_two (Real.tan r / 0.91764)
  have hclose := arctan_pair_close (x := Real.arctan (Real.tan r / 0.91764)) (y := r)
    h0 hge hlt (by rw [Real.tan_arctan]; ring)
  linarith

theorem degrees_le_degrees {a b : ℝ} (h : a ≤ b) : degrees a ≤ degrees b := by
  unfold degrees
  have hpi := Real.pi_pos
  gcongr

theorem degrees_radians (q : ℝ) : degrees (radians q) = q := by
  unfold degrees radians
  field_simp

theorem degrees_add (a b : ℝ) : degrees (a + b) = degrees a + degrees b := by
  unfold degrees
  ring

theorem degrees_sub (a b : ℝ) : degrees (a - b) = degrees a - degrees b := by
  unfold degrees
  ring

theorem degrees_of_small : degrees 0.0431 ≤ 2.47 := by
  unfold degrees
  rw [div_le_iff Real.pi_pos]
  nlinarith [Real.pi_gt_d6]

theorem psi_principal {v : ℝ} (h0 : 0 ≤ v) (h1 : v < 90) :
    0 ≤ degrees (Real.arctan (0.91764 * Real.tan (radians v))) ∧
    degrees (Real.arctan (0.91764 * Real.tan (radians v))) ≤ v ∧
    v - 2.47 ≤ degrees (Real.arctan (0.91764 * Real.tan (radians v))) := by
  have hpi := Real.pi_gt_d6
  have hpipos := Real.pi_pos
  have hr0 : 0 ≤ radians v := radians_nonneg h0
  have hr1 : radians v < π / 2 := by
    unfold radians
    nlinarith
  have ha := arctan_scale_le hr0 hr1
  have hb := arctan_scale_ge hr0 hr1
  have hc := arctan_scale_nonneg hr0 hr1
  refine ⟨?_, ?_, ?_⟩
  · unfold degrees
    positivity
  · have h2 := degrees_le_degrees ha
    rwa [degrees_radians] at h2
  · have h2 := degrees_le_degrees hb
    rw [degrees_sub, degrees_radians] at h2
    have h3 := degrees_of_small
    linarith

theorem psi_shifted {v : ℝ} (h0 : 0 < v) (h1 : v < 90) :
    degrees (Real.arctan (0.91764 * -(Real.tan (radians v))⁻¹)) < 0 ∧
    v ≤ degrees (Real.arctan (0.91764 * -(Real.tan (radians v))⁻¹)) + 90 ∧
    degrees (Real.arctan (0.91764 * -(Real.tan (radians v))⁻¹)) + 90 ≤ v + 2.47 := by
  have hpi := Real.pi_gt_d6
  have hpipos := Real.pi_pos
  have hr0 : 0 < radians v := by
    unfold radians
    nlinarith
  have hr1 : radians v < π / 2 := by
    unfold radians
    nlinarith
  have ht_pos : 0 < Real.tan (radians v) := Real.tan_pos_of_pos_of_lt_pi_div_two hr0 hr1
  have hU_pos : 0 < Real.tan (radians v) / 0.91764 := by positivity
  have hid : (0.91764 : ℝ) * -(Real.tan (radians v))⁻¹ =
      -((Real.tan (radians v) / 0.91764)⁻¹) := by
    field_simp
  rw [hid, Real.arctan_neg, Real.arctan_inv_of_pos hU_pos]
  have hdeg : degrees (-(π / 2 - Real.arctan (Real.tan (radians v) / 0.91764))) =
      degrees (Real.arctan (Real.tan (radians v) / 0.91764)) - 90 := by
    unfold degrees
    field_simp
    ring
  rw [hdeg]
  have hge := arctan_inv_ge hr0.le hr1
  have hle := arctan_inv_le hr0.le hr1
  have hlt := Real.arctan_lt_pi_div_two (Real.tan (radians v) / 0.91764)
  have hdge := degrees_le_degrees hge
  rw [degrees_radians] at hdge
  have hdle := degrees_le_degrees hle
  rw [degrees_add, degrees_radians] at hdle
  have h0431 := degrees_of_small
  have hdlt : degrees (Real.arctan (Real.tan (radians v) / 0.91764)) < 90 := by
    unfold degrees
    rw [div_lt_iff hpipos]
    nlinarith [hlt]
  refine ⟨by linarith, by linarith, by linarith⟩

theorem corr_close {L : ℝ} (h0 : 0 ≤ L) (h1 : L < 360) :
    |pymod (degrees (Real.arctan (0.91764 * Real.tan (radians L)))) 360
      + ((⌊L / 90⌋ : ℝ) * 90
        - (⌊pymod (degrees (Real.arctan (0.91764 * Real.tan (radians L)))) 360 / 90⌋ : ℝ) * 90)
      - L| ≤ 2.5 := by
  have hql : (0 : ℤ) ≤ ⌊L / 90⌋ := Int.floor_nonneg.mpr (by positivity)
  have hqu : ⌊L / 90⌋ < 4 := Int.floor_lt.mpr (by push_cast; linarith)
  have hq4 : ⌊L / 90⌋ = 0 ∨ ⌊L / 90⌋ = 1 ∨ ⌊L / 90⌋ = 2 ∨ ⌊L / 90⌋ = 3 := by omega
  rcases hq4 with hq | hq | hq | hq
  · -- first quadrant: 0 ≤ L < 90
    have hL90 : L < 90 := by
      have h := (Int.floor_eq_iff.mp hq).2
      push_cast at h
      linarith
    obtain ⟨hψ0, hψle, hψge⟩ := psi_principal (v := L) h0 hL90
    set Ψ := degrees (Real.arctan (0.91764 * Real.tan (radians L))) with hΨdef
    have hf1 : ⌊Ψ / 360⌋ = 0 := by
      rw [Int.floor_eq_iff]
      constructor <;> push_cast <;> [positivity; linarith]
    have hm1 : pymod Ψ 360 = Ψ := by
      rw [pymod_def, hf1]
      push_cast
      ring
    rw [hm1]
    have hf2 : ⌊Ψ / 90⌋ = 0 := by
      rw [Int.floor_eq_iff]
      constructor <;> push_cast <;> [positivity; linarith]
    rw [hf2, hq]
    push_cast
    rw [abs_le]
    constructor <;> linarith
  · -- second quadrant: 90 ≤ L < 180
    have hrange := Int.floor_eq_iff.mp hq
    push_cast at hrange
    have hL1 : 90 ≤ L := by linarith [hrange.1]
    have hL2 : L < 180 := by linarith [hrange.2]
    by_cases hL90 : L = 90
    · subst hL90
      have htan0 : Real.tan (radians (90 : ℝ)) = 0 := by
        rw [show radians (90 : ℝ) = π / 2 by unfold radians; ring, Real.tan_pi_div_two]
      rw [htan0]
      have hψ : degrees (Real.arctan (0.91764 * 0)) = 0 := by
        rw [mul_zero, Real.arctan_zero]
        unfold degrees
        simp
      rw [hψ]
      have hm : pymod 0 360 = 0 := by
        rw [pymod_def]
        norm_num
      rw [hm, hq]
      norm_num
    · have hLgt : 90 < L := lt_of_le_of_ne hL1 (Ne.symm hL90)
      have htan : Real.tan (radians L) = -(Real.tan (radians (L - 90)))⁻¹ := by
        rw [show radians L = (radians (L - 90) - π / 2) + π by unfold radians; ring,
          Real.tan_add_pi,
          show radians (L - 90) - π / 2 = -(π / 2 - radians (L - 90)) by ring,
          Real.tan_neg, Real.tan_pi_div_two_sub]
      have hps := psi_shifted (v := L - 90) (by linarith) (by linarith)
      rw [← htan] at hps
      obtain ⟨hψneg, hψ1, hψ2⟩ := hps
      set Ψ := degrees (Real.arctan (0.91764 * Real.tan (radians L))) with hΨdef
      have hψlb : -90 < Ψ := by linarith
      have hf1 : ⌊Ψ / 360⌋ = -1 := by
        rw [Int.floor_eq_iff]
        constructor <;> push_cast <;> linarith
      have hm1 : pymod Ψ 360 = Ψ + 360 := by
        rw [pymod_def, hf1]
        push_cast
        ring
      rw [hm1]
      have hf2 : ⌊(Ψ + 360) / 90⌋ = 3 := by
        rw [Int.floor_eq_iff]
        constructor <;> push_cast <;> linarith
      rw [hf2, hq]
      push_cast
      rw [abs_le]
      constructor <;> linarith
  · -- third quadrant: 180 ≤ L < 270
    have hrange := Int.floor_eq_iff.mp hq
    push_cast at hrange
    have hL1 : 180 ≤ L := by linarith [hrange.1]
    have hL2 : L < 270 := by linarith [hrange.2]
    have htan : Real.tan (radians L) = Real.tan (radians (L - 180)) := by
      rw [show radians L = radians (L - 180) + π by unfold radians; ring, Real.tan_add_pi]
    have hps := psi_principal (v := L - 180) (by linarith) (by linarith)
    rw [← htan] at hps
    obtain ⟨hψ0, hψle, hψge⟩ := hps
    set Ψ := degrees (Real.arctan (0.91764 * Real.tan (radians L))) with hΨdef
    have hf1 : ⌊Ψ / 360⌋ = 0 := by
      rw [Int.floor_eq_iff]
      constructor <;> push_cast <;> [positivity; linarith]
    have hm1 : pymod Ψ 360 = Ψ := by
      rw [pymod_def, hf1]
      push_cast
      ring
    rw [hm1]
    have hf2 : ⌊Ψ / 90⌋ = 0 := by
      rw [Int.floor_eq_iff]
      constructor <;> push_cast <;> [positivity; linarith]
    rw [hf2, hq]
    push_cast
    rw [abs_le]
    constructor <;> linarith
  · -- fourth quadrant: 270 ≤ L < 360
    have hrange := Int.floor_eq_iff.mp hq
    push_cast at hrange
    have hL1 : 270 ≤ L := by linarith [hrange.1]
    by_cases hL270 : L = 270
    · subst hL270
      have htan0 : Real.tan (radians (270 : ℝ)) = 0 := by
        rw [show radians (270 : ℝ) = π / 2 + π by unfold radians; ring,
          Real.tan_add_pi, Real.tan_pi_div_two]
      rw [htan0]
      have hψ : degrees (Real.arctan (0.91764 * 0)) = 0 := by
        rw [mul_zero, Real.arctan_zero]
        unfold degrees
        simp
      rw [hψ]
      have hm : pymod 0 360 = 0 := by
        rw [pymod_def]
        norm_num
      rw [hm, hq]
      norm_num
    · have hLgt : 270 < L := lt_of_le_of_ne hL1 (Ne.symm hL270)
      have htan : Real.tan (radians L) = -(Real.tan (radians (L - 270)))⁻¹ := by
        rw [show radians L = ((radians (L - 270) - π / 2) + π) + π by unfold radians; ring,
          Real.tan_add_pi, Real.tan_add_pi,
          show radians (L - 270) - π / 2 = -(π / 2 - radians (L - 270)) by ring,
          Real.tan_neg, Real.tan_pi_div_two_sub]
      have hps := psi_shifted (v := L - 270) (by linarith) (by linarith)
      rw [← htan] at hps
      obtain ⟨hψneg, hψ1, hψ2⟩ := hps
      set Ψ := degrees (Real.arctan (0.91764 * Real.tan (radians L))) with hΨdef
      have hψlb : -90 < Ψ := by linarith
      have hf1 : ⌊Ψ / 360⌋ = -1 := by
        rw [Int.floor_eq_iff]
        constructor <;> push_cast <;> linarith
      have hm1 : pymod Ψ 360 = Ψ + 360 := by
        rw [pymod_def, hf1]
        push_cast
        ring
      rw [hm1]
      have hf2 : ⌊(Ψ + 360) / 90⌋ = 3 := by
        rw [Int.floor_eq_iff]
        constructor <;> push_cast <;> linarith
      rw [hf2, hq]
      push_cast
      rw [abs_le]
      constructor <;> linarith

theorem ra_hours_close (lon : ℝ) (doy : ℕ) (is_rise : Bool) :
    |15 * ra_hours lon doy is_rise - true_long lon doy is_rise| ≤ 2.5 := by
  have h0 : 0 ≤ true_long lon doy is_rise := pymod_nonneg _ (by norm_num)
  have h1 : true_long lon doy is_rise < 360 := pymod_lt _ (by norm_num)
  have h := corr_close h0 h1
  have heq : 15 * ra_hours lon doy is_rise =
      pymod (degrees (Real.arctan (0.91764 * Real.tan (radians (true_long lon doy is_rise))))) 360
      + ((⌊true_long lon doy is_rise / 90⌋ : ℝ) * 90
        - (⌊pymod (degrees (Real.arctan
            (0.91764 * Real.tan (radians (true_long lon doy is_rise))))) 360 / 90⌋ : ℝ) * 90) := by
    unfold ra_hours ra_uncorrected
    ring
  rw [heq]
  exact h

/-! ### Bounds on the cosine of the hour angle for latitudes within 65 degrees -/

theorem sin_dec_abs_le (lon : ℝ) (doy : ℕ) (is_rise : Bool) :
    |sin_dec lon doy is_rise| ≤ 0.39782 := by
  unfold sin_dec
  rw [abs_mul]
  have h1 : |Real.sin (radians (true_long lon doy is_rise))| ≤ 1 :=
    abs_le.mpr ⟨Real.neg_one_le_sin _, Real.sin_le_one _⟩
  rw [show |(0.39782 : ℝ)| = 0.39782 by norm_num]
  nlinarith

theorem arcsin_sin_dec_abs (lon : ℝ) (doy : ℕ) (is_rise : Bool) :
    |Real.arcsin (sin_dec lon doy is_rise)| ≤ 0.41522 := by
  obtain ⟨hs1, hs2⟩ := abs_le.mp (sin_dec_abs_le lon doy is_rise)
  have hpi := Real.pi_gt_d6
  have h3 : Real.arcsin 0.39782 ≤ 0.41522 := by
    rw [Real.arcsin_le_iff_le_sin (by constructor <;> norm_num)
      (by constructor <;> nlinarith)]
    have h := sin_taylor_lb (x := (0.41522 : ℝ)) (by norm_num) (by norm_num)
    have h2 : (0.39782 : ℝ) ≤ 0.41522 - 0.41522 ^ 3 / 6 - 0.41522 ^ 4 * (5 / 96) := by
      norm_num
    linarith
  have h1 : Real.arcsin (sin_dec lon doy is_rise) ≤ Real.arcsin 0.39782 :=
    Real.monotone_arcsin hs2
  have h2 : Real.arcsin (-0.39782) ≤ Real.arcsin (sin_dec lon doy is_rise) :=
    Real.monotone_arcsin hs1
  have h4 : Real.arcsin (-(0.39782 : ℝ)) = -Real.arcsin 0.39782 := Real.arcsin_neg _
  rw [h4] at h2
  exact abs_le.mpr ⟨by linarith, by linarith⟩

theorem radians_abs_le {lat : ℝ} (hlat : |lat| ≤ 65) : |radians lat| ≤ 1.13447 := by
  unfold radians
  rw [abs_div, abs_mul, abs_of_pos Real.pi_pos,
    show |(180 : ℝ)| = 180 by norm_num]
  have hpi2 := Real.pi_lt_d6
  have h := mul_le_mul hlat hpi2.le Real.pi_pos.le (by norm_num : (0 : ℝ) ≤ 65)
  rw [div_le_iff (by norm_num : (0 : ℝ) < 180)]
  nlinarith

theorem cos_small_pos {x : ℝ} (h : |x| ≤ 1.54969) : 0.0211 ≤ Real.cos x := by
  rw [← Real.cos_abs]
  have hpi1 := Real.pi_gt_d6
  have hpi2 := Real.pi_lt_d6
  have h0 : (0 : ℝ) ≤ |x| := abs_nonneg x
  have hanti := Real.strictAntiOn_cos.antitoneOn
    (a := |x|) (b := (1.54969 : ℝ)) ⟨h0, by nlinarith⟩ ⟨by norm_num, by nlinarith⟩ h
  have hid : Real.cos (1.54969 : ℝ) = Real.sin (π / 2 - 1.54969) :=
    (Real.sin_pi_div_two_sub _).symm
  have hq1 : (0.021106 : ℝ) ≤ π / 2 - 1.54969 := by linarith
  have hq2 : π / 2 - 1.54969 ≤ π / 2 := by linarith
  have hsin := sin_lb_trans (a := (0.021106 : ℝ)) (by norm_num) (by norm_num) hq1 hq2
  have h2 : (0.0211 : ℝ) ≤ 0.021106 - 0.021106 ^ 3 / 6 - 0.021106 ^ 4 * (5 / 96) := by
    norm_num
  rw [hid] at hanti
  linarith

theorem cosH_bounds (lat lon : ℝ) (doy : ℕ) (is_rise : Bool) (hlat : |lat| ≤ 65) :
    -0.9935 ≤ cos_hour_angle lat lon doy is_rise ∧
    cos_hour_angle lat lon doy is_rise ≤ 0.965 := by
  have hs := sin_dec_abs_le lon doy is_rise
  have hdec := arcsin_sin_dec_abs lon doy is_rise
  have hlatR := radians_abs_le hlat
  obtain ⟨hz1, hz2⟩ := cos_radians_zenith
  obtain ⟨hs1, hs2⟩ := abs_le.mp hs
  obtain ⟨hd1, hd2⟩ := abs_le.mp hdec
  obtain ⟨hl1, hl2⟩ := abs_le.mp hlatR
  have hpi := Real.pi_gt_d6
  have hsin_dec : Real.sin (Real.arcsin (sin_dec lon doy is_rise)) = sin_dec lon doy is_rise :=
    Real.sin_arcsin (by linarith) (by linarith)
  have habs1 : |radians lat - Real.arcsin (sin_dec lon doy is_rise)| ≤ 1.54969 := by
    have h := abs_sub (radians lat) (Real.arcsin (sin_dec lon doy is_rise))
    linarith [hlatR, hdec, h]
  have habs2 : |radians lat + Real.arcsin (sin_dec lon doy is_rise)| ≤ 1.54969 := by
    have h := abs_add (radians lat) (Real.arcsin (sin_dec lon doy is_rise))
    linarith [hlatR, hdec, h]
  have hcos1 : 0.0211 ≤ Real.cos (radians lat - Real.arcsin (sin_dec lon doy is_rise)) :=
    cos_small_pos habs1
  have hcos2 : 0.0211 ≤ Real.cos (radians lat + Real.arcsin (sin_dec lon doy is_rise)) :=
    cos_small_pos habs2
  have hcl_pos : 0 < Real.cos (radians lat) :=
    Real.cos_pos_of_mem_Ioo ⟨by nlinarith, by nlinarith⟩
  have hcd_pos : 0 < Real.cos (Real.arcsin (sin_dec lon doy is_rise)) :=
    Real.cos_pos_of_mem_Ioo ⟨by nlinarith, by nlinarith⟩
  have hcl_le : Real.cos (radians lat) ≤ 1 := Real.cos_le_one _
  have hcd_le : Real.cos (Real.arcsin (sin_dec lon doy is_rise)) ≤ 1 := Real.cos_le_one _
  have hexp_sub : Real.cos (radians lat - Real.arcsin (sin_dec lon doy is_rise)) =
      Real.cos (radians lat) * Real.cos (Real.arcsin (sin_dec lon doy is_rise))
        + Real.sin (radians lat) * sin_dec lon doy is_rise := by
    rw [Real.cos_sub, hsin_dec]
  have hexp_add : Real.cos (radians lat + Real.arcsin (sin_dec lon doy is_rise)) =
      Real.cos (radians lat) * Real.cos (Real.arcsin (sin_dec lon doy is_rise))
        - Real.sin (radians lat) * sin_dec lon doy is_rise := by
    rw [Real.cos_add, hsin_dec]
  have hch : cos_hour_angle lat lon doy is_rise =
      (Real.cos (radians 90.833) - sin_dec lon doy is_rise * Real.sin (radians lat))
        / (Real.cos (Real.arcsin (sin_dec lon doy is_rise)) * Real.cos (radians lat)) := rfl
  rw [hch]
  have hden_pos : 0 < Real.cos (Real.arcsin (sin_dec lon doy is_rise)) * Real.cos (radians lat) :=
    mul_pos hcd_pos hcl_pos
  have hden_le : Real.cos (Real.arcsin (sin_dec lon doy is_rise)) * Real.cos (radians lat) ≤ 1 := by
    nlinarith
  have hnum_add : Real.cos (radians 90.833) - sin_dec lon doy is_rise * Real.sin (radians lat) =
      Real.cos (radians 90.833)
        + Real.cos (radians lat + Real.arcsin (sin_dec lon doy is_rise))
        - Real.cos (radians lat) * Real.cos (Real.arcsin (sin_dec lon doy is_rise)) := by
    rw [hexp_add]
    ring
  have hnum_sub : Real.cos (radians 90.833) - sin_dec lon doy is_rise * Real.sin (radians lat) =
      Real.cos (radians 90.833)
        + Real.cos (radians lat) * Real.cos (Real.arcsin (sin_dec lon doy is_rise))
        - Real.cos (radians lat - Real.arcsin (sin_dec lon doy is_rise)) := by
    rw [hexp_sub]
    ring
  constructor
  · rw [le_div_iff hden_pos, hnum_add]
    linarith [hcos2, hz1, hden_le]
  · rw [div_le_iff hden_pos, hnum_sub]
    linarith [hcos1, hz2, hden_le]

/-! ### The two UTC-of-day values are distinct for latitudes within 65 degrees -/

theorem cos_radians_6_5_lb : 0.9935562 ≤ Real.cos (radians 6.5) := by
  have hub : radians 6.5 ≤ 0.1134465 :=
    le_trans (radians_ub (by norm_num)) (by norm_num)
  have h := cos_lb_trans (b := (0.1134465 : ℝ)) (radians_nonneg (by norm_num)) hub
    (by norm_num)
  have h2 : (0.9935562 : ℝ) ≤ 1 - 0.1134465 ^ 2 / 2 - 0.1134465 ^ 4 * (5 / 96) := by
    norm_num
  linarith

theorem hour_angle_deg_bounds (lat lon : ℝ) (doy : ℕ) (is_rise : Bool) (hlat : |lat| ≤ 65) :
    6.5 ≤ degrees (Real.arccos (cos_hour_angle lat lon doy is_rise)) ∧
    degrees (Real.arccos (cos_hour_angle lat lon doy is_rise)) ≤ 173.5 := by
  obtain ⟨hlo, hhi⟩ := cosH_bounds lat lon doy is_rise hlat
  have hc65 := cos_radians_6_5_lb
  have hpi := Real.pi_gt_d6
  have hr0 : 0 ≤ radians 6.5 := radians_nonneg (by norm_num)
  have hrpi : radians 6.5 ≤ π := by
    have := radians_ub (q := 6.5) (by norm_num)
    nlinarith
  have hmem1 : cos_hour_angle lat lon doy is_rise ∈ Set.Icc (-1 : ℝ) 1 :=
    ⟨by linarith, by linarith⟩
  have hmem2 : Real.cos (radians 6.5) ∈ Set.Icc (-1 : ℝ) 1 :=
    ⟨Real.neg_one_le_cos _, Real.cos_le_one _⟩
  have h1 := Real.strictAntiOn_arccos.antitoneOn hmem1 hmem2
    (show cos_hour_angle lat lon doy is_rise ≤ Real.cos (radians 6.5) by linarith)
  rw [Real.arccos_cos hr0 hrpi] at h1
  have hid : radians (173.5 : ℝ) = π - radians 6.5 := by
    unfold radians
    ring
  have hcos173 : Real.cos (radians 173.5) = -Real.cos (radians 6.5) := by
    rw [hid, Real.cos_pi_sub]
  have hmem3 : Real.cos (radians 173.5) ∈ Set.Icc (-1 : ℝ) 1 :=
    ⟨Real.neg_one_le_cos _, Real.cos_le_one _⟩
  have h2 := Real.strictAntiOn_arccos.antitoneOn hmem3 hmem1
    (show Real.cos (radians 173.5) ≤ cos_hour_angle lat lon doy is_rise by
      rw [hcos173]; linarith)
  have hr0' : 0 ≤ radians (173.5 : ℝ) := radians_nonneg (by norm_num)
  have hrpi' : radians (173.5 : ℝ) ≤ π := by
    rw [hid]
    linarith
  rw [Real.arccos_cos hr0' hrpi'] at h2
  constructor
  · have h3 := degrees_le_degrees h1
    rwa [degrees_radians] at h3
  · have h3 := degrees_le_degrees h2
    rwa [degrees_radians] at h3

theorem sin_diff_le (x y : ℝ) : |Real.sin x - Real.sin y| ≤ |x - y| := by
  rw [Real.sin_sub_sin]
  have habs : |(x - y) / 2| = |x - y| / 2 := by
    rw [abs_div]
    norm_num
  have h1 : |Real.sin ((x - y) / 2)| ≤ |x - y| / 2 := by
    have h := Real.abs_sin_le_abs (x := (x - y) / 2)
    rwa [habs] at h
  have h2 := Real.abs_cos_le_one ((x + y) / 2)
  have h3 := mul_le_mul h1 h2 (abs_nonneg _) (by positivity)
  calc |2 * Real.sin ((x - y) / 2) * Real.cos ((x + y) / 2)|
      = 2 * (|Real.sin ((x - y) / 2)| * |Real.cos ((x + y) / 2)|) := by
        rw [abs_mul, abs_mul]
        norm_num
        ring
    _ ≤ 2 * (|x - y| / 2 * 1) := by linarith
    _ = |x - y| := by ring

theorem sun_time_eq_some (lat lon : ℝ) (doy : ℕ) (is_rise : Bool) (hlat : |lat| ≤ 65) :
    sun_time lat lon doy is_rise = some (ut_value lat lon doy is_rise) := by
  obtain ⟨h1, h2⟩ := cosH_bounds lat lon doy is_rise hlat
  unfold sun_time
  rw [if_neg (by linarith), if_neg (by linarith)]

theorem ut_sep_key {Ar As RAr RAs Ltr Lts tr ts lng : ℝ} {kr ks nr ns : ℤ}
    (hAr1 : 6.5 ≤ Ar) (hAr2 : Ar ≤ 173.5) (hAs1 : 6.5 ≤ As) (hAs2 : As ≤ 173.5)
    (hRAr1 : -(2.5) ≤ 15 * RAr - Ltr) (hRAr2 : 15 * RAr - Ltr ≤ 2.5)
    (hRAs1 : -(2.5) ≤ 15 * RAs - Lts) (hRAs2 : 15 * RAs - Lts ≤ 2.5)
    (hP1 : -(0.50963) ≤ (Ltr + 360 * kr) - (Lts + 360 * ks))
    (hP2 : (Ltr + 360 * kr) - (Lts + 360 * ks) ≤ 0.50963)
    (ht : tr - ts = -(1 / 2))
    (heq : ((360 - Ar) / 15 + RAr - 0.06571 * tr - 6.622 - lng) - 24 * nr =
      (As / 15 + RAs - 0.06571 * ts - 6.622 - lng) - 24 * ns) : False := by
  have key : (24 : ℝ) * ((nr : ℝ) - ns + kr - ks) =
      (360 - Ar - As) / 15
      + ((15 * RAr - Ltr) - (15 * RAs - Lts)) / 15
      + ((Ltr + 360 * kr) - (Lts + 360 * ks)) / 15
      - 0.06571 * (tr - ts) := by
    linarith [heq]
  have hbound1 : (0 : ℝ) < 24 * ((nr : ℝ) - ns + kr - ks) := by
    rw [key, ht]
    linarith
  have hbound2 : (24 : ℝ) * ((nr : ℝ) - ns + kr - ks) < 24 := by
    rw [key, ht]
    linarith
  have h1 : (0 : ℝ) < ((nr - ns + kr - ks : ℤ) : ℝ) := by
    push_cast
    linarith
  have h2 : ((nr - ns + kr - ks : ℤ) : ℝ) < 1 := by
    push_cast
    linarith
  have h3 : 0 < nr - ns + kr - ks := by exact_mod_cast h1
  have h4 : nr - ns + kr - ks < 1 := by exact_mod_cast h2
  omega

theorem ut_distinct (lat lon : ℝ) (doy : ℕ) (hlat : |lat| ≤ 65) :
    ut_value lat lon doy true ≠ ut_value lat lon doy false := by
  intro heq
  obtain ⟨hAr1, hAr2⟩ := hour_angle_deg_bounds lat lon doy true hlat
  obtain ⟨hAs1, hAs2⟩ := hour_angle_deg_bounds lat lon doy false hlat
  obtain ⟨hRAr1, hRAr2⟩ := abs_le.mp (ra_hours_close lon doy true)
  obtain ⟨hRAs1, hRAs2⟩ := abs_le.mp (ra_hours_close lon doy false)
  have hPr : true_long lon doy true
      + 360 * (⌊(mean_anomaly lon doy true
          + 1.916 * Real.sin (radians (mean_anomaly lon doy true))
          + 0.020 * Real.sin (radians (2 * mean_anomaly lon doy true))
          + 282.634) / 360⌋ : ℝ) =
      mean_anomaly lon doy true
        + 1.916 * Real.sin (radians (mean_anomaly lon doy true))
        + 0.020 * Real.sin (radians (2 * mean_anomaly lon doy true))
        + 282.634 := by
    unfold true_long
    rw [pymod_def]
    ring
  have hPs : true_long lon doy false
      + 360 * (⌊(mean_anomaly lon doy false
          + 1.916 * Real.sin (radians (mean_anomaly lon doy false))
          + 0.020 * Real.sin (radians (2 * mean_anomaly lon doy false))
          + 282.634) / 360⌋ : ℝ) =
      mean_anomaly lon doy false
        + 1.916 * Real.sin (radians (mean_anomaly lon doy false))
        + 0.020 * Real.sin (radians (2 * mean_anomaly lon doy false))
        + 282.634 := by
    unfold true_long
    rw [pymod_def]
    ring
  have htdiff : t_approx lon doy true - t_approx lon doy false = -(1 / 2) := by
    unfold t_approx lng_hour
    norm_num
    ring
  have hM : mean_anomaly lon doy true - mean_anomaly lon doy false = -(0.4928) := by
    unfold mean_anomaly
    linarith [htdiff]
  have hs1 : |Real.sin (radians (mean_anomaly lon doy true))
      - Real.sin (radians (mean_anomaly lon doy false))| ≤ 0.0086021 := by
    have h := sin_diff_le (radians (mean_anomaly lon doy true))
      (radians (mean_anomaly lon doy false))
    have hlin : radians (mean_anomaly lon doy true) - radians (mean_anomaly lon doy false)
        = (mean_anomaly lon doy true - mean_anomaly lon doy false) * π / 180 := by
      unfold radians
      ring
    rw [hlin, hM] at h
    have habs : |(-(0.4928) : ℝ) * π / 180| = 0.4928 * π / 180 := by
      rw [abs_of_nonpos (by nlinarith [Real.pi_pos] : (-(0.4928) : ℝ) * π / 180 ≤ 0)]
      ring
    rw [habs] at h
    linarith [Real.pi_lt_d6]
  have hs2 : |Real.sin (radians (2 * mean_anomaly lon doy true))
      - Real.sin (radians (2 * mean_anomaly lon doy false))| ≤ 0.0172021 := by
    have h := sin_diff_le (radians (2 * mean_anomaly lon doy true))
      (radians (2 * mean_anomaly lon doy false))
    have hlin : radians (2 * mean_anomaly lon doy true)
        - radians (2 * mean_anomaly lon doy false)
        = (mean_anomaly lon doy true - mean_anomaly lon doy false) * (2 * π) / 180 := by
      unfold radians
      ring
    rw [hlin, hM] at h
    have habs : |(-(0.4928) : ℝ) * (2 * π) / 180| = 0.4928 * (2 * π) / 180 := by
      rw [abs_of_nonpos (by nlinarith [Real.pi_pos] : (-(0.4928) : ℝ) * (2 * π) / 180 ≤ 0)]
      ring
    rw [habs] at h
    linarith [Real.pi_lt_d6]
  obtain ⟨hs1a, hs1b⟩ := abs_le.mp hs1
  obtain ⟨hs2a, hs2b⟩ := abs_le.mp hs2
  have hP1 : -(0.50963 : ℝ) ≤
      (true_long lon doy true
        + 360 * (⌊(mean_anomaly lon doy true
            + 1.916 * Real.sin (radians (mean_anomaly lon doy true))
            + 0.020 * Real.sin (radians (2 * mean_anomaly lon doy true))
            + 282.634) / 360⌋ : ℝ))
      - (true_long lon doy false
        + 360 * (⌊(mean_anomaly lon doy false
            + 1.916 * Real.sin (radians (mean_anomaly lon doy false))
            + 0.020 * Real.sin (radians (2 * mean_anomaly lon doy false))
            + 282.634) / 360⌋ : ℝ)) := by
    rw [hPr, hPs]
    linarith [hM]
  have hP2 : (true_long lon doy true
        + 360 * (⌊(mean_anomaly lon doy true
            + 1.916 * Real.sin (radians (mean_anomaly lon doy true))
            + 0.020 * Real.sin (radians (2 * mean_anomaly lon doy true))
            + 282.634) / 360⌋ : ℝ))
      - (true_long lon doy false
        + 360 * (⌊(mean_anomaly lon doy false
            + 1.916 * Real.sin (radians (mean_anomaly lon doy false))
            + 0.020 * Real.sin (radians (2 * mean_anomaly lon doy false))
            + 282.634) / 360⌋ : ℝ)) ≤ 0.50963 := by
    rw [hPr, hPs]
    linarith [hM]
  have hHr : hour_angle lat lon doy true =
      (360 - degrees (Real.arccos (cos_hour_angle lat lon doy true))) / 15 := by
    unfold hour_angle
    simp
  have hHs : hour_angle lat lon doy false =
      degrees (Real.arccos (cos_hour_angle lat lon doy false)) / 15 := by
    unfold hour_angle
    simp
  have e1 : local_mean_time lat lon doy true =
      (360 - degrees (Real.arccos (cos_hour_angle lat lon doy true))) / 15
      + ra_hours lon doy true - 0.06571 * t_approx lon doy true - 6.622 := by
    unfold local_mean_time
    rw [hHr]
  have e2 : local_mean_time lat lon doy false =
      degrees (Real.arccos (cos_hour_angle lat lon doy false)) / 15
      + ra_hours lon doy false - 0.06571 * t_approx lon doy false - 6.622 := by
    unfold local_mean_time
    rw [hHs]
  have h := heq
  unfold ut_value at h
  simp only [pymod_def] at h
  have heq' : ((360 - degrees (Real.arccos (cos_hour_angle lat lon doy true))) / 15
      + ra_hours lon doy true - 0.06571 * t_approx lon doy true - 6.622 - lng_hour lon)
      - 24 * (⌊(local_mean_time lat lon doy true - lng_hour lon) / 24⌋ : ℝ) =
      (degrees (Real.arccos (cos_hour_angle lat lon doy false)) / 15
      + ra_hours lon doy false - 0.06571 * t_approx lon doy false - 6.622 - lng_hour lon)
      - 24 * (⌊(local_mean_time lat lon doy false - lng_hour lon) / 24⌋ : ℝ) := by
    linarith [h, e1, e2]
  exact ut_sep_key hAr1 hAr2 hAs1 hAs2 hRAr1 hRAr2 hRAs1 hRAs2 hP1 hP2 htdiff heq'

/-- C5 (amended): for every latitude of absolute value at most 65
degrees, every longitude and every calendar date, the cosine-of-hour-
angle test stays within [-1, 1] for both events, `calc_sunrise_sunset`
returns two non-polar UTC-of-day values in [0, 24), and the two
returned values are distinct. -/
theorem c5_inner_latitudes_two_events (lat lon : ℝ) (d : Date) (hlat : |lat| ≤ 65) :
    calc_sunrise_sunset lat lon d =
      (some (ut_value lat lon (dayOfYear d) true),
        some (ut_value lat lon (dayOfYear d) false)) ∧
    0 ≤ ut_value lat lon (dayOfYear d) true ∧ ut_value lat lon (dayOfYear d) true < 24 ∧
    0 ≤ ut_value lat lon (dayOfYear d) false ∧ ut_value lat lon (dayOfYear d) false < 24 ∧
    ut_value lat lon (dayOfYear d) true ≠ ut_value lat lon (dayOfYear d) false ∧
    -1 ≤ cos_hour_angle lat lon (dayOfYear d) true ∧
    cos_hour_angle lat lon (dayOfYear d) true ≤ 1 ∧
    -1 ≤ cos_hour_angle lat lon (dayOfYear d) false ∧
    cos_hour_angle lat lon (dayOfYear d) false ≤ 1 := by
  obtain ⟨ht1, ht2⟩ := cosH_bounds lat lon (dayOfYear d) true hlat
  obtain ⟨hf1, hf2⟩ := cosH_bounds lat lon (dayOfYear d) false hlat
  refine ⟨?_, ?_, ?_, ?_, ?_, ut_distinct lat lon (dayOfYear d) hlat,
    by linarith, by linarith, by linarith, by linarith⟩
  · unfold calc_sunrise_sunset
    rw [sun_time_eq_some lat lon (dayOfYear d) true hlat,
      sun_time_eq_some lat lon (dayOfYear d) false hlat]
  · exact pymod_nonneg _ (by norm_num)
  · exact pymod_lt _ (by norm_num)
  · exact pymod_nonneg _ (by norm_num)
  · exact pymod_lt _ (by norm_num)

theorem c5_inner_latitudes_two_events_witness :
    calc_sunrise_sunset 0 0 ⟨2023, 1, 1⟩ =
      (some (ut_value 0 0 (dayOfYear ⟨2023, 1, 1⟩) true),
        some (ut_value 0 0 (dayOfYear ⟨2023, 1, 1⟩) false)) ∧
    0 ≤ ut_value 0 0 (dayOfYear ⟨2023, 1, 1⟩) true ∧
    ut_value 0 0 (dayOfYear ⟨2023, 1, 1⟩) true < 24 ∧
    0 ≤ ut_value 0 0 (dayOfYear ⟨2023, 1, 1⟩) false ∧
    ut_value 0 0 (dayOfYear ⟨2023, 1, 1⟩) false < 24 ∧
    ut_value 0 0 (dayOfYear ⟨2023, 1, 1⟩) true ≠
      ut_value 0 0 (dayOfYear ⟨2023, 1, 1⟩) false ∧
    -1 ≤ cos_hour_angle 0 0 (dayOfYear ⟨2023, 1, 1⟩) true ∧
    cos_hour_angle 0 0 (dayOfYear ⟨2023, 1, 1⟩) true ≤ 1 ∧
    -1 ≤ cos_hour_angle 0 0 (dayOfYear ⟨2023, 1, 1⟩) false ∧
    cos_hour_angle 0 0 (dayOfYear ⟨2023, 1, 1⟩) false ≤ 1 :=
  c5_inner_latitudes_two_events 0 0 ⟨2023, 1, 1⟩ (by norm_num)
